import Mathlib

/-!
Verification of the RAG server (`src/server.js`).

The file shallowly embeds the pipeline of `server.js`: source normalization
(`loadInline`, `loadPdf`, `loadYouTube`), the index gateway (`upsertChunks`),
the retrieval-answer engine (`answer`) and the two route handlers
(`processRequest` for POST /process, `askRequest` for POST /ask).

External collaborators (the PDF extractor, the YouTube caption fetcher, the
embedding provider, the vector database, the language model, the text
splitter) are modelled as explicit inputs: their outcomes are parameters,
and the calls the server makes to them are recorded in explicit effect
traces, so that claims about "which provider calls happen" are statable.

JavaScript strings are modelled as Lean `String`s; `String.prototype.trim`
and `String.prototype.slice(0, n)` are given executable models over the
character list (`jsTrim`, `jsSlice`).  JavaScript string truthiness
(`!s` is true for `null`/`undefined`/`""`) is modelled with `Option String`
where `none` stands for a missing value and `""` is also falsy.
-/

namespace RagServer

/-- Model of JavaScript `s.trim()`: drop whitespace from both ends. -/
def jsTrim (s : String) : String :=
  ⟨(((s.data.dropWhile Char.isWhitespace).reverse.dropWhile Char.isWhitespace).reverse)⟩

/-- Model of JavaScript `s.slice(0, n)`: the first `n` characters. -/
def jsSlice (s : String) (n : Nat) : String := ⟨s.data.take n⟩

/-- JavaScript truthiness test for an optional string: `none` (missing) and
`""` are falsy. -/
def falsy : Option String → Bool
  | none => true
  | some s => s = ""

/-- Metadata of a LangChain `Document` as used by `server.js`: a provenance
`source` and an optional diagnostic `note`.  `none` models an absent field. -/
structure DocMetadata where
  source : Option String
  note : Option String
  deriving DecidableEq

/-- A LangChain `Document`: page content plus metadata. -/
structure Document where
  pageContent : String
  metadata : DocMetadata
  deriving DecidableEq

/-- Build a `Document` from content, source and note. -/
def mkDoc (content : String) (source note : Option String) : Document :=
  { pageContent := content, metadata := { source := source, note := note } }

/-- Embedding of `loadInline` (server.js lines 71-74): blank or missing text
yields no document, otherwise one verbatim document with source "inline". -/
def loadInline : Option String → List Document
  | none => []
  | some t => if jsTrim t = "" then [] else [mkDoc t (some "inline") none]

/-- Outcome of the external `PDFLoader.load()` call: either the extracted
page contents (the loader sets no `note` of its own) or a thrown error whose
message the catch block records. -/
inductive PdfExtraction where
  | success (pages : List String)
  | failure (message : String)
  deriving DecidableEq

/-- Model of `originalName || "upload.pdf"` (JS falsy fallback). -/
def pdfSourceName : Option String → String
  | none => "upload.pdf"
  | some n => if n = "" then "upload.pdf" else n

/-- Embedding of the body of `loadPdf` (server.js lines 84-106) after the
access check: on success every extracted document gets its `source`
overridden to the original filename; on extraction failure a single
empty-content placeholder document carries the error in its `note`. -/
def loadPdf (originalName : Option String) : PdfExtraction → List Document
  | .success pages => pages.map fun p => mkDoc p (some (pdfSourceName originalName)) none
  | .failure msg =>
      [mkDoc "" (some (pdfSourceName originalName)) (some ("Error processing PDF: " ++ msg))]

/-- Outcome of one external `YoutubeLoader.load()` attempt: either the
loader threw (provider failure) or it returned documents with the given
page contents. -/
inductive CaptionFetch where
  | failed
  | docs (contents : List String)
  deriving DecidableEq

/-- The options record passed to `YoutubeLoader.createFromUrl`. -/
structure YoutubeLoaderOptions where
  language : Option String
  translation : Option String
  addVideoInfo : Bool
  deriving DecidableEq

/-- Options of the first caption-fetch attempt (server.js lines 119-123).
The code has `YT_LANGUAGE` in scope but passes the literal `'en'` for both
`language` and `translation`; the parameter records that the configured
language is ignored here. -/
def ytFirstAttemptOptions (_ytLanguage : String) : YoutubeLoaderOptions :=
  { language := some "en", translation := some "en", addVideoInfo := true }

/-- Options of the second caption-fetch attempt (server.js lines 142-144):
no language hint at all. -/
def ytSecondAttemptOptions : YoutubeLoaderOptions :=
  { language := none, translation := none, addVideoInfo := false }

/-- `docs.map(d => d.pageContent || "").join("\n").trim()` applied to one
attempt's outcome, returning `some` joined text exactly when the attempt
produced usable (non-blank) transcript text. -/
def usableText : CaptionFetch → Option String
  | .failed => none
  | .docs cs =>
      let t := jsTrim (String.intercalate "\n" cs)
      if t = "" then none else some t

/-- Embedding of `loadYouTube` (server.js lines 114-170).  Returns the list
of loader-option records actually attempted (the call trace to the external
caption fetcher, in order) together with the produced documents.  Provider
failures are consumed by the surrounding try/catch blocks, never propagated. -/
def loadYouTube (ytLanguage : String) (url : Option String)
    (attempt1 attempt2 : CaptionFetch) : List YoutubeLoaderOptions × List Document :=
  match url with
  | none => ([], [])
  | some u =>
    if jsTrim u = "" then ([], []) else
    match usableText attempt1 with
    | some t =>
        ([ytFirstAttemptOptions ytLanguage],
         [mkDoc t (some u)
            (some ("YouTube transcript loaded via LangChain (lang=" ++ ytLanguage ++ ")"))])
    | none =>
      match usableText attempt2 with
      | some t =>
          ([ytFirstAttemptOptions ytLanguage, ytSecondAttemptOptions],
           [mkDoc t (some u) (some "YouTube transcript loaded via LangChain (no lang hint)")])
      | none =>
          ([ytFirstAttemptOptions ytLanguage, ytSecondAttemptOptions],
           [mkDoc "" (some u)
              (some "No transcript available or failed to fetch via LangChain YoutubeLoader")])

/-- The single shared Qdrant collection name (server.js line 29). -/
def COLLECTION_NAME : String := "ragChat"

/-- Model of `process.env.YT_LANGUAGE || "en"` (server.js line 36). -/
def ytLanguageOf : Option String → String
  | none => "en"
  | some s => if s = "" then "en" else s

/-- Model of `process.env.OPENAI_API_KEY || ""` (server.js line 33): the
empty string stands for a missing credential, exactly the value
`makeLLM` tests with `!OPENAI_API_KEY`. -/
def openAiKeyOf : Option String → String
  | none => ""
  | some s => s

/-- Embedding of `upsertChunks` (server.js lines 189-196).  The first
component is the trace of `QdrantVectorStore.fromDocuments` write calls
(collection name and the batch of chunks handed to the vector database);
the second is the returned count.  A missing (`none`) or empty chunk list
short-circuits with no write and count 0. -/
def upsertChunks : Option (List Document) → List (String × List Document) × Nat
  | none => ([], 0)
  | some cs => if cs.length = 0 then ([], 0) else ([(COLLECTION_NAME, cs)], cs.length)

/-- Total number of records handed to the vector database by a trace of
write calls. -/
def writtenCount (writes : List (String × List Document)) : Nat :=
  (writes.map fun w => w.2.length).sum

/-- Model of `d.metadata?.source || "unknown"`. -/
def sourceOrUnknown (d : Document) : String :=
  match d.metadata.source with
  | none => "unknown"
  | some s => if s = "" then "unknown" else s

/-- One labeled context block of `answer` (server.js lines 214-218):
`# Doc ${i + 1} (source: ${src})` on its own line followed by the chunk's
content truncated to 1200 characters. -/
def docBlock (i : Nat) (d : Document) : String :=
  "# Doc " ++ toString (i + 1) ++ " (source: " ++ sourceOrUnknown d ++ ")\n"
    ++ jsSlice d.pageContent 1200

/-- The prompt context assembled by `answer` (server.js lines 213-219): the
enumerated labeled blocks joined by blank-line separators. -/
def contextOf (docs : List Document) : String :=
  String.intercalate "\n\n" (docs.enum.map fun p => docBlock p.1 p.2)

/-- One fragment of an array-shaped language-model response: either a plain
string or an object with an optional `text` field. -/
inductive LlmFrag where
  | str (s : String)
  | obj (text : Option String)
  deriving DecidableEq

/-- The `content` of a language-model response: a single string, an array of
fragments, or an unrecognized structure (carried as its serialization,
standing for `JSON.stringify`). -/
inductive LlmContent where
  | str (s : String)
  | arr (frags : List LlmFrag)
  | other (serialized : String)
  deriving DecidableEq

/-- `typeof c === "string" ? c : c?.text || ""` for one fragment. -/
def fragText : LlmFrag → String
  | .str s => s
  | .obj t => match t with
    | none => ""
    | some s => s

/-- Plain-text extraction from the model response (server.js lines 240-245). -/
def extractText : LlmContent → String
  | .str s => s
  | .arr frags => String.intercalate "\n" (frags.map fragText)
  | .other serialized => serialized

/-- One cited source of an answer: `{source, snippet}`. -/
structure SourceRef where
  source : String
  snippet : String
  deriving DecidableEq

/-- The `sources` array built by `answer` (server.js lines 247-250): every
retrieved chunk, in order, mapped to its source and a 200-character snippet. -/
def sourcesOf (docs : List Document) : List SourceRef :=
  docs.map fun d => { source := sourceOrUnknown d, snippet := jsSlice d.pageContent 200 }

/-- The value returned by a successful `answer` call. -/
structure AnswerResult where
  text : String
  sources : List SourceRef
  deriving DecidableEq

/-- One call to an external provider made while answering: a similarity
search (which embeds the query and queries the vector database) or a
language-model invocation carrying the assembled context. -/
inductive ProviderCall where
  | similaritySearch (query : String) (k : Nat)
  | llmInvoke (context : String) (query : String)
  deriving DecidableEq

/-- A store handle, modelled by its observable behaviour: what the
retriever returns for a query at a given `k`. -/
def Store : Type := String → Nat → List Document

/-- Embedding of `answer` (server.js lines 209-253).  The retrieval call
happens first; `makeLLM` (lines 198-207) then throws `Missing
OPENAI_API_KEY` when the credential is empty, before the language model is
invoked; otherwise the model is invoked and its reply (`llmReply`, an
external input) is converted to text.  The first component is the trace of
provider calls in order. -/
def answer (apiKey : String) (store : Store) (llmReply : LlmContent)
    (query : String) (k : Nat) : List ProviderCall × Except String AnswerResult :=
  let docs := store query k
  let context := contextOf docs
  if apiKey = "" then
    ([ProviderCall.similaritySearch query k], Except.error "Missing OPENAI_API_KEY")
  else
    ([ProviderCall.similaritySearch query k, ProviderCall.llmInvoke context query],
     Except.ok { text := extractText llmReply, sources := sourcesOf docs })

/-- Per-source metadata returned to the UI by POST /process
(server.js lines 310-314). -/
structure SourceMeta where
  source : String
  note : Option String
  hasContent : Bool
  deriving DecidableEq

/-- Model of `x || null` on an optional string field: a missing or empty
string collapses to `null` (`none`). -/
def orNull : Option String → Option String
  | none => none
  | some s => if s = "" then none else some s

/-- The `sources` entry built for one document (server.js lines 310-314). -/
def sourceMetaOf (d : Document) : SourceMeta :=
  { source := sourceOrUnknown d,
    note := orNull d.metadata.note,
    hasContent := jsTrim d.pageContent ≠ "" }

/-- The response of POST /process: success (200), the no-extractable-content
client error (400) carrying the diagnostic notes, or an internal error (500). -/
inductive ProcessResponse where
  | ok (sessionId : String) (chunks : Nat) (added : Nat) (sources : List SourceMeta)
  | clientError (error : String) (notes : List String)
  | serverError (error : String)
  deriving DecidableEq

/-- Side effects of an ingest request: a call to the text splitter, a write
batch handed to the vector database, or the registration of a new session. -/
inductive IngestEffect where
  | chunkDocsCall (docs : List Document)
  | upsertWrite (collectionName : String) (chunks : List Document)
  | sessionCreate (sessionId : String)
  deriving DecidableEq

/-- The JSON body fields POST /process destructures (server.js line 270). -/
structure ProcessBody where
  inlineText : Option String
  youtubeUrl : Option String
  deriving DecidableEq

/-- An uploaded file as seen by the route: the multer temp path, the original
filename, whether the temp file is accessible (`fs.access`, server.js lines
78-82), and the outcome of the external PDF extraction. -/
structure PdfUpload where
  path : String
  originalName : Option String
  accessible : Bool
  extraction : PdfExtraction
  deriving DecidableEq

/-- The error `loadPdf` throws when the uploaded temp file cannot be
accessed (server.js line 81); `none` when there is no file or it is
accessible. -/
def pdfAccessError : Option PdfUpload → Option String
  | none => none
  | some f => if f.accessible then none else
      some ("Uploaded file cannot be accessed at " ++ f.path)

/-- The flattened document batch produced by the three normalizer branches
(server.js lines 280-285), in input-kind order: inline, PDF, YouTube. -/
def normalizedDocs (ytLanguage : String) (body : ProcessBody) (file : Option PdfUpload)
    (attempt1 attempt2 : CaptionFetch) : List Document :=
  loadInline body.inlineText
    ++ (match file with
        | none => []
        | some f => loadPdf f.originalName f.extraction)
    ++ (loadYouTube ytLanguage body.youtubeUrl attempt1 attempt2).2

/-- The 400 error message of POST /process (server.js lines 296-297). -/
def noContentMessage : String :=
  "No extractable content. Tips: add some Inline Text, use a text-based PDF (not scanned), or a YouTube URL with captions."

/-- Embedding of the POST /process handler (server.js lines 268-321).
External inputs: the configured caption language, the body fields, the
optional upload, the two caption-fetch outcomes, the external text
splitter `split` (`chunkDocs` delegates to LangChain's
`RecursiveCharacterTextSplitter`), and the fresh session id produced by
`newSessionId`.  Returns the effect trace and the HTTP response.  A PDF
access failure rejects the `Promise.all` and is caught as a 500; when no
document has non-blank content the request fails with 400 and the non-null
diagnostic notes (`.filter(Boolean)` also drops empty strings); otherwise
the docs are chunked, upserted and a session is registered. -/
def processRequest (ytLanguage : String) (body : ProcessBody) (file : Option PdfUpload)
    (attempt1 attempt2 : CaptionFetch) (split : List Document → List Document)
    (freshSessionId : String) : List IngestEffect × ProcessResponse :=
  match pdfAccessError file with
  | some msg => ([], ProcessResponse.serverError msg)
  | none =>
    let docs := normalizedDocs ytLanguage body file attempt1 attempt2
    if docs.any (fun d => jsTrim d.pageContent ≠ "") then
      let chunks := split docs
      let upsertResult := upsertChunks (some chunks)
      ([IngestEffect.chunkDocsCall docs]
         ++ upsertResult.1.map (fun w => IngestEffect.upsertWrite w.1 w.2)
         ++ [IngestEffect.sessionCreate freshSessionId],
       ProcessResponse.ok freshSessionId chunks.length upsertResult.2 (docs.map sourceMetaOf))
    else
      let notes := (docs.filterMap fun d => d.metadata.note).filter (fun s => s ≠ "")
      ([], ProcessResponse.clientError noContentMessage notes)

/-- The response of POST /ask: success (200), missing fields (400), unknown
session (404), or internal failure (500). -/
inductive AskResponse where
  | ok (result : AnswerResult)
  | clientError (error : String)
  | notFound (error : String)
  | serverError (error : String)
  deriving DecidableEq

/-- Embedding of the POST /ask handler (server.js lines 323-337).  The
session registry is an association list from session id to store handle;
`body` is `none` when `req.body` is absent, and each field is `none` when
missing.  The first component is the trace of provider calls made. -/
def askRequest (apiKey : String) (sessions : List (String × Store))
    (llmReply : LlmContent) (body : Option (Option String × Option String)) :
    List ProviderCall × AskResponse :=
  let fields := body.getD (none, none)
  match fields.1, fields.2 with
  | some sessionId, some query =>
    if sessionId = "" ∨ query = "" then
      ([], AskResponse.clientError "sessionId and query are required")
    else
      match sessions.lookup sessionId with
      | none => ([], AskResponse.notFound "Invalid or expired sessionId")
      | some store =>
        match answer apiKey store llmReply query 5 with
        | (calls, Except.ok r) => (calls, AskResponse.ok r)
        | (calls, Except.error e) => (calls, AskResponse.serverError e)
  | _, _ => ([], AskResponse.clientError "sessionId and query are required")

/-- Stated from the claim's words (for comparison with `docBlock`): a block
of the form `Doc <i> (source: <source>)` followed by the chunk's content
truncated to 1200 characters — without the `# ` prefix the code emits. -/
def claimDocBlock (i : Nat) (d : Document) : String :=
  "Doc " ++ toString (i + 1) ++ " (source: " ++ sourceOrUnknown d ++ ")\n"
    ++ jsSlice d.pageContent 1200

/-- The context the claim describes: `claimDocBlock`s joined by blank lines. -/
def claimContext (docs : List Document) : String :=
  String.intercalate "\n\n" (docs.enum.map fun p => claimDocBlock p.1 p.2)

/-- Stated from the amended claim's words: the labeled blocks built by
direct recursion with a 1-indexed counter, block `i` being
`# Doc i (source: s)` followed by the content truncated to 1200 characters. -/
def specBlocks : Nat → List Document → List String
  | _, [] => []
  | i, d :: ds =>
      ("# Doc " ++ toString (i + 1) ++ " (source: " ++ sourceOrUnknown d ++ ")\n"
        ++ jsSlice d.pageContent 1200) :: specBlocks (i + 1) ds

/-- A concrete store handle returning one document, used to instantiate
hypotheses at a concrete input. -/
def storeW : Store := fun _ _ => [mkDoc "hello document content" (some "inline") none]

/-- A concrete uploaded file whose PDF extraction failed, used to
instantiate hypotheses at a concrete input. -/
def fileW : PdfUpload :=
  { path := "uploads/tmp123", originalName := some "notes.pdf",
    accessible := true, extraction := PdfExtraction.failure "boom" }

/-- Slicing never yields more than the requested number of characters. -/
theorem jsSlice_length_le (s : String) (n : Nat) : (jsSlice s n).length ≤ n := by
  show (s.data.take n).length ≤ n
  simp [List.length_take]

/-- Appending to a non-empty string yields a non-empty string. -/
theorem append_ne_empty_left (p m : String) (hp : p ≠ "") : p ++ m ≠ "" := by
  cases p with
  | mk pd =>
    cases m with
    | mk md =>
      intro h
      apply hp
      have hdata : pd ++ md = ([] : List Char) := congrArg String.data h
      rcases List.append_eq_nil.mp hdata with ⟨rfl, -⟩
      rfl

/-- Documents produced by `loadInline` carry no note. -/
theorem loadInline_note_eq_none (t : Option String) :
    ∀ d ∈ loadInline t, d.metadata.note = none := by
  intro d hd
  match t with
  | none => simp [loadInline] at hd
  | some s =>
    by_cases h : jsTrim s = ""
    · simp [loadInline, h] at hd
    · simp [loadInline, h] at hd
      subst hd; rfl

/-- Documents produced by `loadPdf` never carry an empty-string note. -/
theorem loadPdf_note_ne_empty (n : Option String) (e : PdfExtraction) :
    ∀ d ∈ loadPdf n e, d.metadata.note ≠ some "" := by
  intro d hd
  match e with
  | .success pages =>
    simp [loadPdf] at hd
    obtain ⟨p, -, rfl⟩ := hd
    simp [mkDoc]
  | .failure msg =>
    simp [loadPdf] at hd
    subst hd
    simp [mkDoc]
    exact append_ne_empty_left "Error processing PDF: " msg (by decide)

/-- Documents produced by `loadYouTube` never carry an empty-string note. -/
theorem loadYouTube_note_ne_empty (lang : String) (url : Option String)
    (a1 a2 : CaptionFetch) :
    ∀ d ∈ (loadYouTube lang url a1 a2).2, d.metadata.note ≠ some "" := by
  intro d hd
  match url with
  | none => simp [loadYouTube] at hd
  | some u =>
    by_cases hu : jsTrim u = ""
    · simp [loadYouTube, hu] at hd
    · cases h1 : usableText a1 with
      | some t =>
        simp [loadYouTube, hu, h1] at hd
        subst hd
        simp [mkDoc]
        exact append_ne_empty_left _ ")"
          (append_ne_empty_left "YouTube transcript loaded via LangChain (lang=" lang (by decide))
      | none =>
        cases h2 : usableText a2 with
        | some t => simp [loadYouTube, hu, h1, h2] at hd; subst hd; simp [mkDoc]
        | none => simp [loadYouTube, hu, h1, h2] at hd; subst hd; simp [mkDoc]

/-- No document produced by the normalizer carries an empty-string note, so
the route's `.filter(Boolean)` keeps every non-null note. -/
theorem normalizedDocs_note_ne_empty (ytLanguage : String) (body : ProcessBody)
    (file : Option PdfUpload) (a1 a2 : CaptionFetch) :
    ∀ d ∈ normalizedDocs ytLanguage body file a1 a2, d.metadata.note ≠ some "" := by
  intro d hd
  simp only [normalizedDocs, List.mem_append] at hd
  rcases hd with (h | h) | h
  · have := loadInline_note_eq_none body.inlineText d h
    simp [this]
  · match file with
    | none => simp at h
    | some f => exact loadPdf_note_ne_empty f.originalName f.extraction d h
  · exact loadYouTube_note_ne_empty ytLanguage body.youtubeUrl a1 a2 d h

/-- C2: for every inline-text input, absent or blank-after-trimming text
yields no Document, and otherwise the inline branch yields exactly one
Document whose content is the input text verbatim with metadata source
"inline". -/
theorem loadInline_spec (t : String) :
    loadInline none = [] ∧
    (jsTrim t = "" → loadInline (some t) = []) ∧
    (jsTrim t ≠ "" → loadInline (some t) = [mkDoc t (some "inline") none]) := by
  refine ⟨rfl, fun h => ?_, fun h => ?_⟩ <;> simp [loadInline, h]

/-- Witness for C2 at the concrete non-blank input "hello world". -/
theorem loadInline_spec_witness :
    loadInline (some "hello world") = [mkDoc "hello world" (some "inline") none] :=
  (loadInline_spec "hello world").2.2 (by decide)

/-- C6: the upsert operation returns exactly the number of records handed to
the vector database, and a missing or empty chunk list performs no write and
returns 0. -/
theorem upsertChunks_spec (chunks : Option (List Document)) :
    (upsertChunks chunks).2 = writtenCount (upsertChunks chunks).1 ∧
    upsertChunks none = ([], 0) ∧
    upsertChunks (some []) = ([], 0) := by
  refine ⟨?_, rfl, rfl⟩
  match chunks with
  | none => rfl
  | some cs => cases cs <;> simp [upsertChunks, writtenCount]

/-- C4 (code bug): with the preferred caption language configured as "hi"
(`YT_LANGUAGE=hi`, so `ytLanguageOf` yields "hi"), the first caption-fetch
attempt still passes the hard-coded literal "en" as its language hint — not
the configured value — while the second attempt passes no hint; both
attempts are made on a failing fetch. -/
theorem loadYouTube_language_hint_hardcoded :
    ytLanguageOf (some "hi") = "hi" ∧
    (ytFirstAttemptOptions (ytLanguageOf (some "hi"))).language = some "en" ∧
    (ytFirstAttemptOptions (ytLanguageOf (some "hi"))).language ≠ some "hi" ∧
    ytSecondAttemptOptions.language = none ∧
    (loadYouTube (ytLanguageOf (some "hi")) (some "https://youtu.be/abc")
        CaptionFetch.failed CaptionFetch.failed).1 =
      [ytFirstAttemptOptions "hi", ytSecondAttemptOptions] := by
  refine ⟨rfl, rfl, by decide, rfl, by decide⟩

/-- C1 counterexample: with the language-model credential absent, the answer
operation still performs the retrieval call (which invokes the embedding
provider and the vector database) before failing — the provider-call trace
is not empty, contradicting "without invoking the embedding provider, the
vector database, or the language model". -/
theorem answer_missing_key_counterexample :
    (answer "" (fun _ _ => []) (LlmContent.str "") "q" 5).1 =
      [ProviderCall.similaritySearch "q" 5] ∧
    (answer "" (fun _ _ => []) (LlmContent.str "") "q" 5).1 ≠ [] ∧
    (answer "" (fun _ _ => []) (LlmContent.str "") "q" 5).2 =
      Except.error "Missing OPENAI_API_KEY" := by
  refine ⟨rfl, by decide, rfl⟩

/-- C1 amended: for every store handle, model reply, query and k, when the
credential is absent the answer operation fails with the missing-credential
error, raised after the retrieval call (embedding provider and vector
database are invoked) but before the language model: the trace is exactly
the one similarity search and contains no language-model invocation. -/
theorem answer_missing_key_fails_before_llm (store : Store) (llmReply : LlmContent)
    (query : String) (k : Nat) :
    answer "" store llmReply query k =
      ([ProviderCall.similaritySearch query k], Except.error "Missing OPENAI_API_KEY") ∧
    ∀ c q, ProviderCall.llmInvoke c q ∉ (answer "" store llmReply query k).1 := by
  constructor
  · simp [answer]
  · intro c q
    simp [answer]

/-- C3: for every non-blank video URL the YouTube branch never propagates a
provider failure and always yields exactly one Document with the input URL
as source: if the first attempt yields usable (non-blank joined) text the
result carries that joined text and only the first attempt is made; if only
the second does, both attempts are made and the result carries the second
attempt's joined text; if neither does, both attempts are made and the
result is a single empty-content Document with a diagnostic note. -/
theorem loadYouTube_spec (ytLanguage u : String) (attempt1 attempt2 : CaptionFetch)
    (hu : jsTrim u ≠ "") :
    (loadYouTube ytLanguage (some u) attempt1 attempt2).2.length = 1 ∧
    (usableText attempt1 = none → usableText attempt2 = none →
      loadYouTube ytLanguage (some u) attempt1 attempt2 =
        ([ytFirstAttemptOptions ytLanguage, ytSecondAttemptOptions],
         [mkDoc "" (some u)
           (some "No transcript available or failed to fetch via LangChain YoutubeLoader")])) ∧
    (∀ cs, attempt1 = CaptionFetch.docs cs → jsTrim (String.intercalate "\n" cs) ≠ "" →
      loadYouTube ytLanguage (some u) attempt1 attempt2 =
        ([ytFirstAttemptOptions ytLanguage],
         [mkDoc (jsTrim (String.intercalate "\n" cs)) (some u)
           (some ("YouTube transcript loaded via LangChain (lang=" ++ ytLanguage ++ ")"))])) ∧
    (∀ cs, usableText attempt1 = none → attempt2 = CaptionFetch.docs cs →
      jsTrim (String.intercalate "\n" cs) ≠ "" →
      loadYouTube ytLanguage (some u) attempt1 attempt2 =
        ([ytFirstAttemptOptions ytLanguage, ytSecondAttemptOptions],
         [mkDoc (jsTrim (String.intercalate "\n" cs)) (some u)
           (some "YouTube transcript loaded via LangChain (no lang hint)")])) := by
  refine ⟨?_, fun h1 h2 => ?_, fun cs hcs ht => ?_, fun cs h1 hcs ht => ?_⟩
  · cases h1 : usableText attempt1 with
    | some t => simp [loadYouTube, hu, h1]
    | none =>
      cases h2 : usableText attempt2 with
      | some t => simp [loadYouTube, hu, h1, h2]
      | none => simp [loadYouTube, hu, h1, h2]
  · simp [loadYouTube, hu, h1, h2]
  · subst hcs
    have h1 : usableText (CaptionFetch.docs cs) = some (jsTrim (String.intercalate "\n" cs)) := by
      simp [usableText, ht]
    simp [loadYouTube, hu, h1]
  · subst hcs
    have h2 : usableText (CaptionFetch.docs cs) = some (jsTrim (String.intercalate "\n" cs)) := by
      simp [usableText, ht]
    simp [loadYouTube, hu, h1, h2]

/-- Witness for C3: a concrete non-blank URL whose first attempt fails and
whose second attempt returns the transcript parts "hello" and "world". -/
theorem loadYouTube_spec_witness :
    loadYouTube "en" (some "https://youtu.be/abc") CaptionFetch.failed
        (CaptionFetch.docs ["hello", "world"]) =
      ([ytFirstAttemptOptions "en", ytSecondAttemptOptions],
       [mkDoc "hello\nworld" (some "https://youtu.be/abc")
         (some "YouTube transcript loaded via LangChain (no lang hint)")]) := by
  have h := (loadYouTube_spec "en" "https://youtu.be/abc" CaptionFetch.failed
      (CaptionFetch.docs ["hello", "world"]) (by decide)).2.2.2 ["hello", "world"]
      rfl rfl (by decide)
  exact h.trans (by decide)

/-- C7 counterexample: for the single retrieved chunk "hello" from source
"inline", the context the code assembles is `# Doc 1 (source: inline)` plus
the content — the label carries a `# ` prefix the claim's block form
`Doc <i> (source: <source>)` does not have. -/
theorem contextOf_counterexample :
    contextOf [mkDoc "hello" (some "inline") none] = "# Doc 1 (source: inline)\nhello" ∧
    claimContext [mkDoc "hello" (some "inline") none] = "Doc 1 (source: inline)\nhello" ∧
    contextOf [mkDoc "hello" (some "inline") none] ≠
      claimContext [mkDoc "hello" (some "inline") none] := by
  refine ⟨by decide, by decide, by decide⟩

/-- The enumerated blocks the code builds agree with the directly recursive
blocks of the amended claim, from any starting index. -/
theorem enum_docBlock_eq_specBlocks (docs : List Document) :
    ∀ n, (List.enumFrom n docs).map (fun p => docBlock p.1 p.2) = specBlocks n docs := by
  induction docs with
  | nil => intro n; rfl
  | cons d ds ih =>
    intro n
    simp only [List.enumFrom, List.map, specBlocks]
    rw [ih (n + 1), docBlock]

/-- C7 amended: the prompt context consists of one labeled block per
retrieved chunk in retrieval order, 1-indexed, of the form
`# Doc <i> (source: <source>)` followed by the chunk's content truncated to
at most 1200 characters, joined by blank-line separators; there is exactly
one block per chunk and every truncated body is at most 1200 characters. -/
theorem contextOf_spec (docs : List Document) :
    contextOf docs = String.intercalate "\n\n" (specBlocks 0 docs) ∧
    (specBlocks 0 docs).length = docs.length ∧
    ∀ d ∈ docs, (jsSlice d.pageContent 1200).length ≤ 1200 := by
  refine ⟨?_, ?_, fun d _ => jsSlice_length_le d.pageContent 1200⟩
  · show String.intercalate "\n\n" ((List.enumFrom 0 docs).map fun p => docBlock p.1 p.2) = _
    rw [enum_docBlock_eq_specBlocks docs 0]
  · rw [← enum_docBlock_eq_specBlocks docs 0]
    simp

/-- C8: with the credential present and a retriever honoring k = 5 (at most
5 chunks returned), a successful answer maps every retrieved chunk, in
retrieval order and without deduplication, to a record of its source and
the first 200 characters of its content: the sources list has one entry per
chunk at the same position, length at most 5, and every snippet has length
at most 200. -/
theorem answer_sources_spec (apiKey : String) (store : Store) (llmReply : LlmContent)
    (query : String) (hkey : apiKey ≠ "") (hlen : (store query 5).length ≤ 5) :
    (answer apiKey store llmReply query 5).2 =
      Except.ok { text := extractText llmReply, sources := sourcesOf (store query 5) } ∧
    (sourcesOf (store query 5)).length = (store query 5).length ∧
    (sourcesOf (store query 5)).length ≤ 5 ∧
    (∀ e ∈ sourcesOf (store query 5), e.snippet.length ≤ 200) ∧
    ∀ i : Nat, (sourcesOf (store query 5))[i]? =
      ((store query 5)[i]?).map fun d =>
        { source := sourceOrUnknown d, snippet := jsSlice d.pageContent 200 } := by
  refine ⟨?_, ?_, ?_, ?_, ?_⟩
  · simp [answer, hkey]
  · simp [sourcesOf]
  · simpa [sourcesOf] using hlen
  · intro e he
    simp only [sourcesOf, List.mem_map] at he
    obtain ⟨d, -, rfl⟩ := he
    exact jsSlice_length_le d.pageContent 200
  · intro i
    simp [sourcesOf, List.getElem?_map]

/-- Witness for C8: the concrete store `storeW` returning one chunk, key
"sk-key", reply "fine", query "q". -/
theorem answer_sources_spec_witness :
    (answer "sk-key" storeW (LlmContent.str "fine") "q" 5).2 =
      Except.ok { text := extractText (LlmContent.str "fine"),
                  sources := sourcesOf (storeW "q" 5) } ∧
    (sourcesOf (storeW "q" 5)).length = (storeW "q" 5).length ∧
    (sourcesOf (storeW "q" 5)).length ≤ 5 ∧
    (∀ e ∈ sourcesOf (storeW "q" 5), e.snippet.length ≤ 200) ∧
    ∀ i : Nat, (sourcesOf (storeW "q" 5))[i]? =
      ((storeW "q" 5)[i]?).map fun d =>
        { source := sourceOrUnknown d, snippet := jsSlice d.pageContent 200 } :=
  answer_sources_spec "sk-key" storeW (LlmContent.str "fine") "q" (by decide) (by decide)

/-- C9: for every ask request, a missing body or a missing (or empty, which
JavaScript treats the same) sessionId or query yields the client-error
response with no provider call, and a present but unregistered sessionId
yields the not-found response with no embedding, vector-database, or
language-model call. -/
theorem askRequest_spec (apiKey : String) (sessions : List (String × Store))
    (llmReply : LlmContent) (sessionId query : Option String) :
    askRequest apiKey sessions llmReply none =
      ([], AskResponse.clientError "sessionId and query are required") ∧
    ((sessionId = none ∨ query = none) →
      askRequest apiKey sessions llmReply (some (sessionId, query)) =
        ([], AskResponse.clientError "sessionId and query are required")) ∧
    ((sessionId = some "" ∨ query = some "") →
      askRequest apiKey sessions llmReply (some (sessionId, query)) =
        ([], AskResponse.clientError "sessionId and query are required")) ∧
    (∀ sid q, sessionId = some sid → query = some q → sid ≠ "" → q ≠ "" →
      sessions.lookup sid = none →
      askRequest apiKey sessions llmReply (some (sessionId, query)) =
        ([], AskResponse.notFound "Invalid or expired sessionId")) := by
  refine ⟨rfl, fun h => ?_, fun h => ?_, fun sid q hsid hq hsid2 hq2 hlook => ?_⟩
  · rcases h with rfl | rfl
    · cases query <;> rfl
    · cases sessionId <;> rfl
  · rcases h with rfl | rfl
    · cases query with
      | none => rfl
      | some qs => simp [askRequest]
    · cases sessionId with
      | none => rfl
      | some ss => simp [askRequest]
  · subst hsid; subst hq
    simp [askRequest, hsid2, hq2, hlook]

/-- Witness for C9: an unknown sessionId "nope" against an empty registry
yields not-found with an empty provider-call trace. -/
theorem askRequest_spec_witness :
    askRequest "sk-key" [] (LlmContent.str "fine") (some (some "nope", some "hi")) =
      ([], AskResponse.notFound "Invalid or expired sessionId") :=
  (askRequest_spec "sk-key" [] (LlmContent.str "fine") (some "nope") (some "hi")).2.2.2
    "nope" "hi" rfl rfl (by decide) (by decide) rfl

/-- C5: for every ingest request that normalizes successfully but whose
normalized documents all have blank (empty after trimming) content, the
ingest operation responds with the no-extractable-content client error whose
payload is exactly the list of all non-null diagnostic notes of those
documents, and performs no chunking, no upsert write and no session
creation (the effect trace is empty). -/
theorem processRequest_no_content_spec (ytLanguage : String) (body : ProcessBody)
    (file : Option PdfUpload) (a1 a2 : CaptionFetch)
    (split : List Document → List Document) (freshSessionId : String)
    (hfile : pdfAccessError file = none)
    (hblank : ∀ d ∈ normalizedDocs ytLanguage body file a1 a2, jsTrim d.pageContent = "") :
    processRequest ytLanguage body file a1 a2 split freshSessionId =
      ([], ProcessResponse.clientError noContentMessage
        ((normalizedDocs ytLanguage body file a1 a2).filterMap fun d => d.metadata.note)) := by
  have hany : (normalizedDocs ytLanguage body file a1 a2).any
      (fun d => jsTrim d.pageContent ≠ "") = false := by
    rw [List.any_eq_false]
    intro d hd
    simp [hblank d hd]
  have hfilter : ((normalizedDocs ytLanguage body file a1 a2).filterMap
        fun d => d.metadata.note).filter (fun s => s ≠ "") =
      (normalizedDocs ytLanguage body file a1 a2).filterMap fun d => d.metadata.note := by
    rw [List.filter_eq_self]
    intro s hs
    rcases List.mem_filterMap.mp hs with ⟨d, hd, hnote⟩
    have hne := normalizedDocs_note_ne_empty ytLanguage body file a1 a2 d hd
    by_cases h : s = ""
    · subst h; exact absurd hnote hne
    · simp [h]
  unfold processRequest
  rw [hfile]
  simp only [hany, Bool.false_eq_true, if_false, hfilter]

/-- Witness for C5: no inline text, a PDF whose extraction failed, and a
YouTube URL with both caption attempts failing — every normalized document
is blank, the response is the 400 error carrying both diagnostic notes, and
no effect is performed. -/
theorem processRequest_no_content_spec_witness :
    processRequest "en" { inlineText := none, youtubeUrl := some "https://youtu.be/abc" }
        (some fileW) CaptionFetch.failed CaptionFetch.failed id "s_1" =
      ([], ProcessResponse.clientError noContentMessage
        ["Error processing PDF: boom",
         "No transcript available or failed to fetch via LangChain YoutubeLoader"]) := by
  have h := processRequest_no_content_spec "en"
    { inlineText := none, youtubeUrl := some "https://youtu.be/abc" }
    (some fileW) CaptionFetch.failed CaptionFetch.failed id "s_1" (by decide) (by decide)
  exact h.trans (by decide)

/-- The count `upsertChunks` returns for a present chunk list is always the
length of that list (0 coincides with the length on the empty list). -/
theorem upsertChunks_some_count (cs : List Document) :
    (upsertChunks (some cs)).2 = cs.length := by
  cases cs <;> simp [upsertChunks]

/-- C10 (implicit): in every successful ingest response the `added` field
equals the `chunks` field, because the upsert operation reports the length
of its input chunk list — regardless of the store, the splitter, or what
the vector database actually stored. -/
theorem processRequest_added_eq_chunks (ytLanguage : String) (body : ProcessBody)
    (file : Option PdfUpload) (a1 a2 : CaptionFetch)
    (split : List Document → List Document) (freshSessionId : String)
    (sid : String) (c a : Nat) (srcs : List SourceMeta)
    (h : (processRequest ytLanguage body file a1 a2 split freshSessionId).2 =
      ProcessResponse.ok sid c a srcs) :
    a = c := by
  unfold processRequest at h
  cases hf : pdfAccessError file with
  | some m => rw [hf] at h; simp at h
  | none =>
    rw [hf] at h
    simp only [] at h
    split at h
    · simp only [ProcessResponse.ok.injEq] at h
      obtain ⟨-, hc, ha, -⟩ := h
      rw [← hc, ← ha, upsertChunks_some_count]
    · simp at h

/-- Witness for C10: a concrete successful ingest of the inline text
"hello" with the identity splitter reports added = chunks = 1. -/
theorem processRequest_added_eq_chunks_witness :
    (processRequest "en" { inlineText := some "hello", youtubeUrl := none }
        none CaptionFetch.failed CaptionFetch.failed id "s_1").2 =
      ProcessResponse.ok "s_1" 1 1
        [{ source := "inline", note := none, hasContent := true }] ∧
    (1 : Nat) = 1 :=
  ⟨by decide,
   processRequest_added_eq_chunks "en" { inlineText := some "hello", youtubeUrl := none }
     none CaptionFetch.failed CaptionFetch.failed id "s_1" "s_1" 1 1
     [{ source := "inline", note := none, hasContent := true }] (by decide)⟩

end RagServer
